import Mathlib

/-!
# Verification of the game-state update loop of `main.js`

Shallow embedding of the simulation core of the "shoot the planets" arcade
game (`src/main.js`).  Machine numbers are modelled exactly: times and
angles accumulated in 1/60-steps live in `ℚ`, geometric data used by the
ray–sphere collision test lives in `ℝ`.  The registry/maintenance layer
never inspects a planet's geometry, so it is polymorphic in the coordinate
type `α`; concrete evaluations instantiate `α := Unit`.
-/

set_option maxRecDepth 100000

/-- The three planet rarity tiers (`PLANET_CONFIG` keys). -/
inductive Category : Type where
  | common : Category
  | exotic : Category
  | rare : Category
deriving DecidableEq, Repr

/-- A 3-component vector over an arbitrary coordinate type. -/
structure Vec3 (α : Type) : Type where
  x : α
  y : α
  z : α
deriving DecidableEq, Repr

/-- The per-planet data drawn at creation time by `createSinglePlanet`
(random position, size and points); the registry logic never reads these
fields, the laser collision test reads all of them. -/
structure PBody (α : Type) : Type where
  center : Vec3 α
  radius : α
  points : ℕ
deriving DecidableEq, Repr

/-- One live planet: its category tag plus the drawn attributes
(`planet.userData` in `main.js`). -/
structure Planet (α : Type) : Type where
  category : Category
  body : PBody α
deriving DecidableEq, Repr

/-- `PLANET_CONFIG[cat].count` — the seeding count used by the *active*
(one-argument) declaration of `createPlanetCategory`. -/
def configCount : Category → ℕ
  | .common => 40
  | .exotic => 14
  | .rare => 6

/-- Number of live planets of one category
(`planets.filter(p => p.children[0].userData.category === cat).length`). -/
def countCat {α : Type} (cat : Category) (ps : List (Planet α)) : ℕ :=
  (ps.filter (fun p => decide (p.category = cat))).length

/-- The spawning loop body of `updatePlanets` (`main.js:1646-1654`): `toAdd`
iterations of an `if/else if` chain over the category counts `c`, `e`, `r`
that were computed *before* the loop and are not refreshed inside it. -/
def spawnBatch {α : Type} (fresh : ℕ → PBody α) (c e r toAdd : ℕ) :
    List (Planet α) :=
  (List.range toAdd).filterMap fun i =>
    if c < 40 then some ⟨.common, fresh i⟩
    else if e < 40 then some ⟨.exotic, fresh i⟩
    else if r < 20 then some ⟨.rare, fresh i⟩
    else none

/-- The population-maintenance part of `updatePlanets` (`main.js:1633-1663`):
count each category, then if fewer than `100` planets are live append
`min (100 - planets.length) 5` newly created planets (`planets.push` keeps
the list oldest-first), and if more than `100` are live remove the excess
from the front (`planets.shift()`), with no batch limit on removal.
`fresh` stands for the random draws of `createSinglePlanet`. -/
def updatePlanetsMaint {α : Type} (fresh : ℕ → PBody α) (ps : List (Planet α)) :
    List (Planet α) :=
  let c := countCat .common ps
  let e := countCat .exotic ps
  let r := countCat .rare ps
  let ps1 :=
    if ps.length < 100 then
      ps ++ spawnBatch fresh c e r (min (100 - ps.length) 5)
    else ps
  if ps1.length > 100 then ps1.drop (ps1.length - 100) else ps1

/-- The *second* declaration of `createPlanetCategory` (`main.js:228-234`).
In JavaScript both function declarations are hoisted and the later one wins,
so every call site resolves here: the `count` argument passed by
`createPlanets` is ignored and `PLANET_CONFIG[category].count` is used. -/
def createPlanetCategory {α : Type} (fresh : ℕ → PBody α) (cat : Category) :
    List (Planet α) :=
  (List.range (configCount cat)).map fun i => ⟨cat, fresh i⟩

/-- `createPlanets` (`main.js:211-220`): clears the registry and seeds the
three categories.  The literal arguments `40/40/20` at the call sites are
discarded by the shadowing one-argument `createPlanetCategory`, so the
actual seed is `40` common, `14` exotic, `6` rare. -/
def createPlanets {α : Type} (fresh : ℕ → PBody α) : List (Planet α) :=
  createPlanetCategory fresh .common ++ createPlanetCategory fresh .exotic ++
    createPlanetCategory fresh .rare

/-- Trivial planet attributes used to evaluate the registry layer on concrete
inputs (the maintenance logic never reads them). -/
def unitBody : ℕ → PBody Unit := fun _ => ⟨⟨(), (), ()⟩, (), 0⟩

/-- The registry produced by the game's actual seeding. -/
def seedRegistry : List (Planet Unit) := createPlanets unitBody

/-- One maintenance pass on a `Unit`-attributed registry. -/
def maintU : List (Planet Unit) → List (Planet Unit) :=
  updatePlanetsMaint unitBody

/-! ## Global constants (`main.js:4-13`) -/

/-- `MAX_Y_ROTATION = Math.PI`. -/
noncomputable def MAX_Y_ROTATION : ℝ := Real.pi

/-- `MAX_X_ROTATION = Math.PI / 3`. -/
noncomputable def MAX_X_ROTATION : ℝ := Real.pi / 3

/-- `ROTATION_SPEED = 0.03` (camera angles). -/
def ROTATION_SPEED : ℝ := 0.03

/-- `CAMERA_RETURN_SPEED = 0.008`. -/
def CAMERA_RETURN_SPEED : ℝ := 0.008

/-- `CUBE_SIZE = 1600`. -/
def CUBE_SIZE : ℝ := 1600

/-- `AVATAR_MOVEMENT_SPEED = 2`. -/
def AVATAR_MOVEMENT_SPEED : ℝ := 2

/-- `AVATAR_ROTATION_SPEED = 0.01`. -/
def AVATAR_ROTATION_SPEED : ℝ := 0.01

/-- `LASER_MAX_DURATION = 5` seconds. -/
def LASER_MAX_DURATION : ℚ := 5

/-- `LASER_COOLDOWN_DURATION = 0.5` seconds. -/
def LASER_COOLDOWN_DURATION : ℚ := 1/2

/-- `GAME_DURATION = 300` seconds. -/
def GAME_DURATION : ℚ := 300

/-! ## Geometry and the laser collision test -/

/-- Componentwise vector difference. -/
def Vec3.sub {α : Type} [Sub α] (a b : Vec3 α) : Vec3 α :=
  ⟨a.x - b.x, a.y - b.y, a.z - b.z⟩

/-- Euclidean inner product. -/
def Vec3.dot {α : Type} [Mul α] [Add α] (a b : Vec3 α) : α :=
  a.x * b.x + a.y * b.y + a.z * b.z

open Classical in
/-- Distance from `o` along the (unit) direction `d` to the planet's bounding
sphere, following `THREE.Ray.intersectSphere` as invoked by the
`THREE.Raycaster` built in `updateLaser` (`main.js:1691`, with
`near = 0`, `far = ∞`): `none` when the ray misses the sphere or the sphere
lies entirely behind the origin, otherwise the smallest non-negative root of
the ray–sphere quadratic. -/
noncomputable def hitDistance (o d : Vec3 ℝ) (p : Planet ℝ) : Option ℝ :=
  let v := Vec3.sub p.body.center o
  let tca := Vec3.dot v d
  let d2 := Vec3.dot v v - tca * tca
  let r2 := p.body.radius * p.body.radius
  if r2 < d2 then none
  else
    let thc := Real.sqrt (r2 - d2)
    let t0 := tca - thc
    let t1 := tca + thc
    if t1 < 0 then none
    else if t0 < 0 then some t1
    else some t0

open Classical in
/-- Helper for `bestHit`: scans the planets from index `k` on and returns the
index and distance of the closest hit, preferring the earlier index on exact
ties (JavaScript's ascending sort is stable). -/
noncomputable def bestHitAux (o d : Vec3 ℝ) : ℕ → List (Planet ℝ) → Option (ℕ × ℝ)
  | _, [] => none
  | k, p :: ps =>
    match hitDistance o d p, bestHitAux o d (k + 1) ps with
    | none, r => r
    | some t, none => some (k, t)
    | some t, some (j, s) => if s < t then some (j, s) else some (k, t)

/-- `laserRaycaster.intersectObjects(planets)` followed by `intersects[0]`
(`main.js:1692-1695`): the hits are sorted by ascending distance and the
first one is taken, i.e. the planet with the least hit distance. -/
noncomputable def bestHit (o d : Vec3 ℝ) (ps : List (Planet ℝ)) :
    Option (ℕ × ℝ) :=
  bestHitAux o d 0 ps

/-! ## Laser state machine -/

/-- The mutable state read and written by the laser lifecycle
(`laserActive`, `laserTime`, `cooldownTime`, `score`, `planets`). -/
structure LaserGame : Type where
  score : ℕ
  planets : List (Planet ℝ)
  laserActive : Bool
  laserTime : ℚ
  cooldownTime : ℚ

/-- Fallback planet for the (unreachable) out-of-range index in `updateLaser`. -/
def defaultPlanet : Planet ℝ := ⟨.common, ⟨⟨0, 0, 0⟩, 0, 0⟩⟩

/-- `handleMouseDown` (`main.js:1080-1086`): the trigger is accepted only
when the laser is not firing and the cooldown has expired
(`!laserActive && cooldownTime <= 0`); it then starts a burn with
`laserTime = 0`. -/
def handleMouseDown (s : LaserGame) : LaserGame :=
  if s.laserActive = false ∧ s.cooldownTime ≤ 0 then
    { s with laserActive := true, laserTime := 0 }
  else s

/-- `handleMouseUp` (`main.js:1088-1096`): a release during a burn
immediately deactivates the laser and sets `cooldownTime = 0`. -/
def handleMouseUp (s : LaserGame) : LaserGame :=
  if s.laserActive then { s with laserActive := false, cooldownTime := 0 }
  else s

open Classical in
/-- `updateLaser` (`main.js:1666-1730`) with the aim ray `(o, d)` taken from
`avatarHead.position` and `laser.userData.direction`.  While firing:
advance `laserTime` by `1/60`, run the collision test, and on a hit add the
struck planet's `points` to the score and splice it out of `planets`; then
if `laserTime >= LASER_MAX_DURATION` enter cooldown with
`cooldownTime = LASER_COOLDOWN_DURATION`.  While not firing, a positive
cooldown is decremented by `1/60`. -/
noncomputable def updateLaser (o d : Vec3 ℝ) (s : LaserGame) : LaserGame :=
  if s.laserActive then
    let s1 : LaserGame := { s with laserTime := s.laserTime + 1/60 }
    let s2 : LaserGame :=
      match bestHit o d s1.planets with
      | none => s1
      | some (i, _) =>
        { s1 with
          score := s1.score + (s1.planets.getD i defaultPlanet).body.points
          planets := s1.planets.eraseIdx i }
    if LASER_MAX_DURATION ≤ s2.laserTime then
      { s2 with laserActive := false, cooldownTime := LASER_COOLDOWN_DURATION }
    else s2
  else if 0 < s.cooldownTime then
    { s with cooldownTime := s.cooldownTime - 1/60 }
  else s

/-! ## Avatar controller -/

/-- The movement flags of the `controls` snapshot consumed by
`updateAvatarMovement`. -/
structure MoveControls : Type where
  forward : Bool
  backward : Bool
  rotateLeft : Bool
  rotateRight : Bool
  up : Bool
  down : Bool

/-- Avatar pose: position and yaw (`avatar.position`, `avatar.rotation.y`). -/
structure Avatar : Type where
  pos : Vec3 ℝ
  rotY : ℝ

/-- `updateAvatarMovement` (`main.js:1505-1559`): yaw changes by
`±AVATAR_ROTATION_SPEED` on rotate input; the facing vector is `(0,0,-1)`
rotated about the vertical axis by the (updated) yaw, i.e.
`(-sin rotY, 0, -cos rotY)`; forward subtracts and backward adds
`direction * AVATAR_MOVEMENT_SPEED` on the `x`/`z` components; up/down move
`y` directly; finally each component is clamped to
`[-CUBE_SIZE/2, CUBE_SIZE/2]`. -/
noncomputable def updateAvatarMovement (c : MoveControls) (a : Avatar) : Avatar :=
  let rotY := a.rotY + (if c.rotateLeft then AVATAR_ROTATION_SPEED else 0)
  let rotY := rotY - (if c.rotateRight then AVATAR_ROTATION_SPEED else 0)
  let dirx := -Real.sin rotY
  let dirz := -Real.cos rotY
  let x := a.pos.x
  let z := a.pos.z
  let x := if c.forward then x - dirx * AVATAR_MOVEMENT_SPEED else x
  let z := if c.forward then z - dirz * AVATAR_MOVEMENT_SPEED else z
  let x := if c.backward then x + dirx * AVATAR_MOVEMENT_SPEED else x
  let z := if c.backward then z + dirz * AVATAR_MOVEMENT_SPEED else z
  let y := a.pos.y
  let y := if c.up then y + AVATAR_MOVEMENT_SPEED else y
  let y := if c.down then y - AVATAR_MOVEMENT_SPEED else y
  let halfSize := CUBE_SIZE / 2
  { pos := ⟨max (-halfSize) (min halfSize x),
            max (-halfSize) (min halfSize y),
            max (-halfSize) (min halfSize z)⟩,
    rotY := rotY }

/-- The avatar pose after `n` ticks of `updateAvatarMovement` under the
control-state sequence `cs`. -/
noncomputable def runAvatar (cs : ℕ → MoveControls) (a : Avatar) : ℕ → Avatar
  | 0 => a
  | n + 1 => updateAvatarMovement (cs n) (runAvatar cs a n)

/-! ## Camera rig -/

/-- The camera-look flags of the `controls` snapshot. -/
structure CamControls : Type where
  cameraLeft : Bool
  cameraRight : Bool
  cameraUp : Bool
  cameraDown : Bool

/-- The damped look-around state (`cameraAngleY`, `cameraAngleX`). -/
structure CamAngles : Type where
  angleY : ℝ
  angleX : ℝ

/-- The angle-update portion of `updateCamera` (`main.js:1561-1580`): the
held flags push each angle toward its hard clamp, and when neither flag of
an axis is held the angle is damped by `1 - CAMERA_RETURN_SPEED`. -/
noncomputable def updateCameraAngles (c : CamControls) (s : CamAngles) : CamAngles :=
  let y := if c.cameraLeft then min MAX_Y_ROTATION (s.angleY + ROTATION_SPEED)
           else s.angleY
  let y := if c.cameraRight then max (-MAX_Y_ROTATION) (y - ROTATION_SPEED)
           else y
  let x := if c.cameraUp then min MAX_X_ROTATION (s.angleX + ROTATION_SPEED)
           else s.angleX
  let x := if c.cameraDown then max (-MAX_X_ROTATION) (x - ROTATION_SPEED)
           else x
  let y := if c.cameraLeft = false ∧ c.cameraRight = false then
             y * (1 - CAMERA_RETURN_SPEED)
           else y
  let x := if c.cameraUp = false ∧ c.cameraDown = false then
             x * (1 - CAMERA_RETURN_SPEED)
           else x
  ⟨y, x⟩

/-- The all-released camera control snapshot. -/
def noCamInput : CamControls := ⟨false, false, false, false⟩

/-- Camera angles after `n` ticks with every look-input released. -/
noncomputable def camDecay (s : CamAngles) : ℕ → CamAngles
  | 0 => s
  | n + 1 => updateCameraAngles noCamInput (camDecay s n)

/-! ## Match clock and session -/

/-- The game-session state touched by `updateGameTime`, `endGame` and the
restart handler.  The registry layer is polymorphic in the planet attribute
type; the avatar position only ever receives exact values here, so it is
kept in `ℚ`. -/
structure SessionState (α : Type) : Type where
  gameOver : Bool
  gameTime : ℚ
  score : ℕ
  planets : List (Planet α)
  laserActive : Bool
  laserTime : ℚ
  cooldownTime : ℚ
  avatarPos : Vec3 ℚ

/-- `endGame` (`main.js:1234-1241`, state mutations only): marks the match
over and tears down any in-flight beam. -/
def endGame {α : Type} (s : SessionState α) : SessionState α :=
  { s with gameOver := true, laserActive := false }

/-- `updateGameTime` (`main.js:1488-1503`): a no-op once `gameOver` is set;
otherwise advances `gameTime` by `1/60` and calls `endGame` when
`max 0 (GAME_DURATION - gameTime) <= 0`. -/
def updateGameTime {α : Type} (s : SessionState α) : SessionState α :=
  if s.gameOver then s
  else
    let s1 := { s with gameTime := s.gameTime + 1/60 }
    if max 0 (GAME_DURATION - s1.gameTime) ≤ 0 then endGame s1 else s1

/-- The restart-button handler (`main.js:1254-1281`, state mutations only):
zeroes the clock, score and laser timers, deactivates the game-over flag and
the laser, moves the avatar to the origin, and re-seeds the registry with
`createPlanets()`. -/
def restart {α : Type} (fresh : ℕ → PBody α) : SessionState α :=
  { gameOver := false
    gameTime := 0
    score := 0
    planets := createPlanets fresh
    laserActive := false
    laserTime := 0
    cooldownTime := 0
    avatarPos := ⟨0, 0, 0⟩ }

/-! ## Fixtures for concrete evaluations -/

/-- First category in the fixed common → exotic → rare order whose live
count is below its maintenance target — the category selected by the
`if/else if` chain of `updatePlanets`. -/
def firstDeficient {α : Type} (ps : List (Planet α)) : Category :=
  if countCat .common ps < 40 then .common
  else if countCat .exotic ps < 40 then .exotic
  else .rare

/-- A 106-planet registry, used to probe the removal branch of the
maintenance pass. -/
def bigRegistry : List (Planet Unit) :=
  (List.range 106).map fun i => ⟨.rare, unitBody i⟩

/-- Concrete aim-ray origin. -/
def rayO : Vec3 ℝ := ⟨0, 0, 0⟩

/-- Concrete (unit) aim-ray direction. -/
def rayD : Vec3 ℝ := ⟨0, 0, 1⟩

/-- A planet dead ahead on `rayD` at distance `2500` with radius `100`
(hit distance `2400`). -/
def planetNear : Planet ℝ := ⟨.exotic, ⟨⟨0, 0, 2500⟩, 100, 250⟩⟩

/-- A farther planet on the same ray, at distance `2800` with radius `100`
(hit distance `2700`). -/
def planetFar : Planet ℝ := ⟨.rare, ⟨⟨0, 0, 2800⟩, 100, 600⟩⟩

/-- A firing laser state aimed at `planetNear` and `planetFar`. -/
def laserFixture : LaserGame := ⟨0, [planetNear, planetFar], true, 0, 0⟩

/-- An idle laser state. -/
def laserIdleFixture : LaserGame := ⟨0, [], false, 0, 0⟩

/-- A mid-burn laser state. -/
def laserBurnFixture : LaserGame := ⟨120, [], true, 7/4, 0⟩

/-- A deflected camera state within the clamped ranges. -/
noncomputable def camFixture : CamAngles := ⟨1, 1/2⟩

/-- A session one tick away from the end of the match. -/
def sessionFixture : SessionState Unit :=
  ⟨false, GAME_DURATION - 1/60, 7, [], false, 0, 0, ⟨0, 0, 0⟩⟩

example : countCat .common seedRegistry = 40 := by decide
example : countCat .exotic seedRegistry = 14 := by decide
example : countCat .rare seedRegistry = 6 := by decide
example : seedRegistry.length = 60 := by decide
example : countCat .exotic (maintU^[8] seedRegistry) = 44 := by decide
example : countCat .rare (maintU^[8] seedRegistry) = 16 := by decide
example : (maintU^[8] seedRegistry).length = 100 := by decide
example : maintU^[9] seedRegistry = maintU^[8] seedRegistry := by decide

/-! ## Counting lemmas -/

theorem countCat_nil {α : Type} (cat : Category) :
    countCat cat ([] : List (Planet α)) = 0 := rfl

theorem countCat_cons {α : Type} (cat : Category) (p : Planet α)
    (ps : List (Planet α)) :
    countCat cat (p :: ps) =
      (if p.category = cat then 1 else 0) + countCat cat ps := by
  by_cases h : p.category = cat <;> simp [countCat, List.filter_cons, h] <;> omega

theorem countCat_append {α : Type} (cat : Category) (l1 l2 : List (Planet α)) :
    countCat cat (l1 ++ l2) = countCat cat l1 + countCat cat l2 := by
  simp [countCat, List.filter_append]

theorem countCat_sum {α : Type} (ps : List (Planet α)) :
    countCat .common ps + countCat .exotic ps + countCat .rare ps = ps.length := by
  induction ps with
  | nil => rfl
  | cons p ps ih =>
    cases h : p.category <;> simp [countCat_cons, h, List.length_cons] <;> omega

theorem countCat_mapRange {α : Type} (fresh : ℕ → PBody α)
    (cat cat' : Category) (n : ℕ) :
    countCat cat ((List.range n).map fun i => (⟨cat', fresh i⟩ : Planet α)) =
      if cat' = cat then n else 0 := by
  induction n with
  | zero => simp [countCat]
  | succ n ih =>
    rw [List.range_succ, List.map_append, countCat_append, ih]
    by_cases h : cat' = cat <;> simp [countCat_cons, countCat_nil, h]

/-! ## Spawn-batch lemmas -/

theorem filterMap_some_fn {α β : Type} (f : α → β) (l : List α) :
    l.filterMap (fun a => some (f a)) = l.map f := by
  induction l with
  | nil => rfl
  | cons a l ih => simp [List.filterMap_cons, ih]

theorem spawnBatch_common {α : Type} (fresh : ℕ → PBody α) (c e r n : ℕ)
    (hc : c < 40) :
    spawnBatch fresh c e r n =
      (List.range n).map fun i => ⟨.common, fresh i⟩ := by
  have h : (fun i : ℕ =>
      if c < 40 then some (⟨.common, fresh i⟩ : Planet α)
      else if e < 40 then some ⟨.exotic, fresh i⟩
      else if r < 20 then some ⟨.rare, fresh i⟩
      else none) = fun i => some (⟨.common, fresh i⟩ : Planet α) := by
    funext i; simp [hc]
  unfold spawnBatch
  rw [h, filterMap_some_fn]

theorem spawnBatch_exotic {α : Type} (fresh : ℕ → PBody α) (c e r n : ℕ)
    (hc : ¬ c < 40) (he : e < 40) :
    spawnBatch fresh c e r n =
      (List.range n).map fun i => ⟨.exotic, fresh i⟩ := by
  have h : (fun i : ℕ =>
      if c < 40 then some (⟨.common, fresh i⟩ : Planet α)
      else if e < 40 then some ⟨.exotic, fresh i⟩
      else if r < 20 then some ⟨.rare, fresh i⟩
      else none) = fun i => some (⟨.exotic, fresh i⟩ : Planet α) := by
    funext i; simp [hc, he]
  unfold spawnBatch
  rw [h, filterMap_some_fn]

theorem spawnBatch_rare {α : Type} (fresh : ℕ → PBody α) (c e r n : ℕ)
    (hc : ¬ c < 40) (he : ¬ e < 40) (hr : r < 20) :
    spawnBatch fresh c e r n =
      (List.range n).map fun i => ⟨.rare, fresh i⟩ := by
  have h : (fun i : ℕ =>
      if c < 40 then some (⟨.common, fresh i⟩ : Planet α)
      else if e < 40 then some ⟨.exotic, fresh i⟩
      else if r < 20 then some ⟨.rare, fresh i⟩
      else none) = fun i => some (⟨.rare, fresh i⟩ : Planet α) := by
    funext i; simp [hc, he, hr]
  unfold spawnBatch
  rw [h, filterMap_some_fn]

/-- A maintenance pass on an under-populated registry appends exactly
`min (100 - |ps|) 5` planets of the single category `firstDeficient ps`. -/
theorem maint_spawn_eq {α : Type} (fresh : ℕ → PBody α) (ps : List (Planet α))
    (h : ps.length < 100) :
    updatePlanetsMaint fresh ps =
      ps ++ (List.range (min (100 - ps.length) 5)).map
        (fun i => ⟨firstDeficient ps, fresh i⟩) := by
  have hsum := countCat_sum ps
  by_cases hc : countCat .common ps < 40
  · have hfd : firstDeficient ps = Category.common := by
      simp [firstDeficient, hc]
    simp only [updatePlanetsMaint, hfd]
    rw [if_pos h, spawnBatch_common fresh _ _ _ _ hc]
    have hle : (ps ++ (List.range (min (100 - ps.length) 5)).map
        (fun i => (⟨Category.common, fresh i⟩ : Planet α))).length ≤ 100 := by
      rw [List.length_append, List.length_map, List.length_range]
      omega
    rw [if_neg (by omega)]
  · by_cases he : countCat .exotic ps < 40
    · have hfd : firstDeficient ps = Category.exotic := by
        simp [firstDeficient, hc, he]
      simp only [updatePlanetsMaint, hfd]
      rw [if_pos h, spawnBatch_exotic fresh _ _ _ _ hc he]
      have hle : (ps ++ (List.range (min (100 - ps.length) 5)).map
          (fun i => (⟨Category.exotic, fresh i⟩ : Planet α))).length ≤ 100 := by
        rw [List.length_append, List.length_map, List.length_range]
        omega
      rw [if_neg (by omega)]
    · have hr : countCat .rare ps < 20 := by omega
      have hfd : firstDeficient ps = Category.rare := by
        simp [firstDeficient, hc, he]
      simp only [updatePlanetsMaint, hfd]
      rw [if_pos h, spawnBatch_rare fresh _ _ _ _ hc he hr]
      have hle : (ps ++ (List.range (min (100 - ps.length) 5)).map
          (fun i => (⟨Category.rare, fresh i⟩ : Planet α))).length ≤ 100 := by
        rw [List.length_append, List.length_map, List.length_range]
        omega
      rw [if_neg (by omega)]

/-- A maintenance pass on a registry of exactly 100 planets is the identity. -/
theorem maint_eq_self_at_100 {α : Type} (fresh : ℕ → PBody α)
    (ps : List (Planet α)) (h : ps.length = 100) :
    updatePlanetsMaint fresh ps = ps := by
  simp only [updatePlanetsMaint]
  rw [if_neg (show ¬ ps.length < 100 by omega), if_neg (show ¬ ps.length > 100 by omega)]

/-- A maintenance pass on an over-populated registry removes every excess
planet from the front in that single pass. -/
theorem maint_drop {α : Type} (fresh : ℕ → PBody α) (ps : List (Planet α))
    (h : 100 < ps.length) :
    updatePlanetsMaint fresh ps = ps.drop (ps.length - 100) := by
  simp only [updatePlanetsMaint]
  rw [if_neg (show ¬ ps.length < 100 by omega), if_pos (show ps.length > 100 by omega)]

/-- A tick of the match clock is a no-op once the game is over. -/
theorem updateGameTime_of_gameOver {α : Type} (s : SessionState α)
    (h : s.gameOver = true) : updateGameTime s = s := by
  simp [updateGameTime, h]

/-- The tick that crosses `GAME_DURATION` calls `endGame`. -/
theorem updateGameTime_ends {α : Type} (s : SessionState α)
    (hov : s.gameOver = false) (ht : s.gameTime = GAME_DURATION - 1/60) :
    updateGameTime s = endGame { s with gameTime := GAME_DURATION } := by
  simp only [updateGameTime, hov, Bool.false_eq_true, if_false]
  rw [ht]
  norm_num [GAME_DURATION]

/-! ## Claim C10 -/

/-- C10: in any single maintenance pass that spawns planets (total
population below 100), every planet spawned in that pass has the same
category, namely the first of common, exotic, rare whose count at the start
of the pass is below its target (the counts are computed once before the
spawn loop and not refreshed inside it). -/
theorem spawn_pass_uniform_category {α : Type} (fresh : ℕ → PBody α)
    (ps : List (Planet α)) (h : ps.length < 100) :
    0 < min (100 - ps.length) 5 ∧
    updatePlanetsMaint fresh ps =
      ps ++ (List.range (min (100 - ps.length) 5)).map
        (fun i => ⟨firstDeficient ps, fresh i⟩) ∧
    ∀ p ∈ updatePlanetsMaint fresh ps, p ∉ ps →
      p.category = firstDeficient ps := by
  refine ⟨by omega, maint_spawn_eq fresh ps h, ?_⟩
  intro p hp hnp
  rw [maint_spawn_eq fresh ps h] at hp
  rcases List.mem_append.mp hp with h1 | h1
  · exact absurd h1 hnp
  · rcases List.mem_map.mp h1 with ⟨i, _, rfl⟩
    rfl

/-- Witness for C10 at the game's actual seed registry (length 60 < 100). -/
theorem spawn_pass_uniform_category_witness :
    0 < min (100 - seedRegistry.length) 5 ∧
    updatePlanetsMaint unitBody seedRegistry =
      seedRegistry ++ (List.range (min (100 - seedRegistry.length) 5)).map
        (fun i => ⟨firstDeficient seedRegistry, unitBody i⟩) ∧
    ∀ p ∈ updatePlanetsMaint unitBody seedRegistry, p ∉ seedRegistry →
      p.category = firstDeficient seedRegistry :=
  spawn_pass_uniform_category unitBody seedRegistry (by decide)

/-! ## Claim C7 -/

/-- C7 counterexample: on a registry of 106 planets a single maintenance
pass removes 6 planets, refuting "removes at most 5 planets per tick". -/
theorem maintenance_removal_unbounded :
    bigRegistry.length = 106 ∧
    (updatePlanetsMaint unitBody bigRegistry).length = 100 ∧
    bigRegistry.length - (updatePlanetsMaint unitBody bigRegistry).length = 6 ∧
    ¬ (bigRegistry.length - (updatePlanetsMaint unitBody bigRegistry).length ≤ 5) := by
  exact ⟨by decide, by decide, by decide, by decide⟩

/-- C7 (amended): every maintenance pass creates at most 5 planets; when
the population is at most 100 nothing is removed and the total grows to
`min (|ps| + 5) 100` (so the 100-planet invariant is approached over
several passes, not instantaneously — in particular any pass starting below
95 still ends below 100); but when the population exceeds 100 the pass
removes *all* the excess at once, with no batch limit. -/
theorem maintenance_batch_limits {α : Type} (fresh : ℕ → PBody α)
    (ps : List (Planet α)) :
    (updatePlanetsMaint fresh ps).length ≤ ps.length + 5 ∧
    (ps.length ≤ 100 →
      ps <+: updatePlanetsMaint fresh ps ∧
      (updatePlanetsMaint fresh ps).length = min (ps.length + 5) 100) ∧
    (100 < ps.length →
      updatePlanetsMaint fresh ps = ps.drop (ps.length - 100)) ∧
    (ps.length < 95 → (updatePlanetsMaint fresh ps).length < 100) := by
  by_cases h1 : ps.length < 100
  · have heq := maint_spawn_eq fresh ps h1
    have hlen : (updatePlanetsMaint fresh ps).length
        = ps.length + min (100 - ps.length) 5 := by
      rw [heq, List.length_append, List.length_map, List.length_range]
    refine ⟨by omega, fun _ => ⟨?_, by omega⟩,
      fun h2 => absurd h2 (by omega), fun h3 => by omega⟩
    rw [heq]
    exact List.prefix_append _ _
  · by_cases h2 : ps.length = 100
    · have heq := maint_eq_self_at_100 fresh ps h2
      have hlen := congrArg List.length heq
      refine ⟨by omega, fun _ => ⟨?_, by omega⟩,
        fun h3 => by omega, fun h4 => by omega⟩
      rw [heq]
    · have h3 : 100 < ps.length := by omega
      have heq := maint_drop fresh ps h3
      have hlen : (updatePlanetsMaint fresh ps).length = 100 := by
        rw [heq, List.length_drop]
        omega
      exact ⟨by omega, fun h4 => absurd h3 (by omega), fun _ => heq,
        fun h5 => by omega⟩

/-- Witness for the amended C7 at the seed registry (60 planets): the pass
removes nothing and grows the total to 65 < 100. -/
theorem maintenance_batch_limits_witness :
    seedRegistry <+: updatePlanetsMaint unitBody seedRegistry ∧
    (updatePlanetsMaint unitBody seedRegistry).length =
      min (seedRegistry.length + 5) 100 ∧
    (updatePlanetsMaint unitBody seedRegistry).length < 100 :=
  ⟨((maintenance_batch_limits unitBody seedRegistry).2.1 (by decide)).1,
   ((maintenance_batch_limits unitBody seedRegistry).2.1 (by decide)).2,
   (maintenance_batch_limits unitBody seedRegistry).2.2.2 (by decide)⟩

/-! ## Claim C1 -/

/-- C1 (code bug): from the game's actual seed (40 common, 14 exotic,
6 rare — the 40/40/20 call-site arguments are discarded by the shadowing
declaration of `createPlanetCategory`), repeated maintenance passes without
disturbances settle on a *fixed point* with 40 common, 44 exotic and
16 rare planets: the total does reach 100, but the exotic count overshoots
its target 40 (stale in-loop counts) and the rare count never reaches 20. -/
theorem population_settles_off_target :
    seedRegistry.length = 60 ∧
    countCat .common seedRegistry = 40 ∧
    countCat .exotic seedRegistry = 14 ∧
    countCat .rare seedRegistry = 6 ∧
    (maintU^[8] seedRegistry).length = 100 ∧
    countCat .common (maintU^[8] seedRegistry) = 40 ∧
    countCat .exotic (maintU^[8] seedRegistry) = 44 ∧
    countCat .rare (maintU^[8] seedRegistry) = 16 ∧
    (∀ n : ℕ, maintU^[n] (maintU^[8] seedRegistry) = maintU^[8] seedRegistry) ∧
    ¬ countCat .exotic (maintU^[8] seedRegistry) = 40 ∧
    ¬ countCat .rare (maintU^[8] seedRegistry) = 20 := by
  refine ⟨by decide, by decide, by decide, by decide, by decide, by decide,
    by decide, by decide, fun n => Function.iterate_fixed (by decide) n,
    by decide, by decide⟩

/-! ## Claim C6 -/

/-- C6 (code bug in the re-seed): starting one tick before `GAME_DURATION`,
a single `updateGameTime` tick sets `gameOver` exactly once and further
ticks are no-ops; the restart handler zeroes score, clock and laser timers,
returns the avatar to the origin and re-seeds the registry — but the
re-seeded counts are 40/14/6 (total 60), not the target 40/40/20, because
the two-argument `createPlanetCategory` is shadowed. -/
theorem match_end_restart_reseed {α : Type} (fresh : ℕ → PBody α)
    (s : SessionState α) (hov : s.gameOver = false)
    (ht : s.gameTime = GAME_DURATION - 1/60) :
    (updateGameTime s).gameOver = true ∧
    (updateGameTime s).gameTime = GAME_DURATION ∧
    updateGameTime (updateGameTime s) = updateGameTime s ∧
    (restart fresh : SessionState α).gameOver = false ∧
    (restart fresh : SessionState α).gameTime = 0 ∧
    (restart fresh : SessionState α).score = 0 ∧
    (restart fresh : SessionState α).laserActive = false ∧
    (restart fresh : SessionState α).laserTime = 0 ∧
    (restart fresh : SessionState α).cooldownTime = 0 ∧
    (restart fresh : SessionState α).avatarPos = ⟨0, 0, 0⟩ ∧
    countCat .common (restart fresh : SessionState α).planets = 40 ∧
    countCat .exotic (restart fresh : SessionState α).planets = 14 ∧
    countCat .rare (restart fresh : SessionState α).planets = 6 ∧
    ¬ countCat .exotic (restart fresh : SessionState α).planets = 40 := by
  have hend := updateGameTime_ends s hov ht
  have hcounts : ∀ cat : Category,
      countCat cat (restart fresh : SessionState α).planets =
        countCat cat (createPlanets fresh) := fun cat => rfl
  refine ⟨by rw [hend]; rfl, by rw [hend]; rfl, ?_, rfl, rfl, rfl, rfl, rfl,
    rfl, rfl, ?_, ?_, ?_, ?_⟩
  · exact updateGameTime_of_gameOver _ (by rw [hend]; rfl)
  · rw [hcounts]
    simp [createPlanets, createPlanetCategory, countCat_append,
      countCat_mapRange, configCount]
  · rw [hcounts]
    simp [createPlanets, createPlanetCategory, countCat_append,
      countCat_mapRange, configCount]
  · rw [hcounts]
    simp [createPlanets, createPlanetCategory, countCat_append,
      countCat_mapRange, configCount]
  · rw [hcounts]
    simp [createPlanets, createPlanetCategory, countCat_append,
      countCat_mapRange, configCount]

/-- Witness for C6 at a concrete session one tick before the end. -/
theorem match_end_restart_reseed_witness :
    (updateGameTime sessionFixture).gameOver = true ∧
    (updateGameTime sessionFixture).gameTime = GAME_DURATION ∧
    updateGameTime (updateGameTime sessionFixture) =
      updateGameTime sessionFixture ∧
    (restart unitBody : SessionState Unit).gameOver = false ∧
    (restart unitBody : SessionState Unit).gameTime = 0 ∧
    (restart unitBody : SessionState Unit).score = 0 ∧
    (restart unitBody : SessionState Unit).laserActive = false ∧
    (restart unitBody : SessionState Unit).laserTime = 0 ∧
    (restart unitBody : SessionState Unit).cooldownTime = 0 ∧
    (restart unitBody : SessionState Unit).avatarPos = ⟨0, 0, 0⟩ ∧
    countCat .common (restart unitBody : SessionState Unit).planets = 40 ∧
    countCat .exotic (restart unitBody : SessionState Unit).planets = 14 ∧
    countCat .rare (restart unitBody : SessionState Unit).planets = 6 ∧
    ¬ countCat .exotic (restart unitBody : SessionState Unit).planets = 40 :=
  match_end_restart_reseed unitBody sessionFixture rfl rfl

/-! ## Laser timing lemmas -/

/-- Timing projections of one `updateLaser` tick while firing: the elapsed
time advances by `1/60`; crossing `LASER_MAX_DURATION` enters cooldown,
otherwise the laser keeps firing and the cooldown field is untouched. -/
theorem updateLaser_firing_timing (o d : Vec3 ℝ) (s : LaserGame)
    (h : s.laserActive = true) :
    (updateLaser o d s).laserTime = s.laserTime + 1/60 ∧
    (LASER_MAX_DURATION ≤ s.laserTime + 1/60 →
      (updateLaser o d s).laserActive = false ∧
      (updateLaser o d s).cooldownTime = LASER_COOLDOWN_DURATION) ∧
    (s.laserTime + 1/60 < LASER_MAX_DURATION →
      (updateLaser o d s).laserActive = true ∧
      (updateLaser o d s).cooldownTime = s.cooldownTime) := by
  rcases hb : bestHit o d s.planets with _ | ⟨i, t⟩ <;>
    simp [updateLaser, h, hb] <;>
    split_ifs with hd <;>
    refine ⟨rfl, fun hge => ?_, fun hlt => ?_⟩ <;>
    first
      | exact ⟨rfl, rfl⟩
      | exact absurd hd (not_le.mpr hlt)
      | exact absurd hge hd

/-- One `updateLaser` tick while idle with a running cooldown decrements the
cooldown by `1/60` and changes nothing else. -/
theorem updateLaser_cooldown_timing (o d : Vec3 ℝ) (s : LaserGame)
    (h : s.laserActive = false) (hpos : 0 < s.cooldownTime) :
    updateLaser o d s = { s with cooldownTime := s.cooldownTime - 1/60 } := by
  simp [updateLaser, h, hpos]

/-- During a burn started at `laserTime = 0`, each of the first 299 ticks
keeps the laser firing with `laserTime = n/60`. -/
theorem burn_progress (o d : Vec3 ℝ) (s : LaserGame) (h : s.laserActive = true)
    (h0 : s.laserTime = 0) :
    ∀ n : ℕ, n ≤ 299 →
      ((updateLaser o d)^[n] s).laserActive = true ∧
      ((updateLaser o d)^[n] s).laserTime = (n : ℚ) / 60 := by
  intro n
  induction n with
  | zero => exact fun _ => ⟨h, by simpa using h0⟩
  | succ n ih =>
    intro hn
    obtain ⟨ha, ht⟩ := ih (by omega)
    rw [Function.iterate_succ_apply']
    obtain ⟨ht1, _, hlt⟩ :=
      updateLaser_firing_timing o d ((updateLaser o d)^[n] s) ha
    have hcast : (n : ℚ) ≤ 298 := by exact_mod_cast (by omega : n ≤ 298)
    have hsmall : ((updateLaser o d)^[n] s).laserTime + 1/60
        < LASER_MAX_DURATION := by
      rw [ht, LASER_MAX_DURATION]
      linarith
    refine ⟨(hlt hsmall).1, ?_⟩
    rw [ht1, ht]
    push_cast
    ring

/-- The 300th tick of a burn (5.0 s at `dt = 1/60`) ends it: the laser
switches off with `cooldownTime = LASER_COOLDOWN_DURATION = 0.5`. -/
theorem burn_completes (o d : Vec3 ℝ) (s : LaserGame) (h : s.laserActive = true)
    (h0 : s.laserTime = 0) :
    ((updateLaser o d)^[300] s).laserActive = false ∧
    ((updateLaser o d)^[300] s).laserTime = 5 ∧
    ((updateLaser o d)^[300] s).cooldownTime = LASER_COOLDOWN_DURATION := by
  obtain ⟨ha, ht⟩ := burn_progress o d s h h0 299 (le_refl _)
  rw [show (300 : ℕ) = 299 + 1 from rfl, Function.iterate_succ_apply']
  obtain ⟨ht1, himp, _⟩ :=
    updateLaser_firing_timing o d ((updateLaser o d)^[299] s) ha
  have h5 : ((updateLaser o d)^[299] s).laserTime + 1/60 = 5 := by
    rw [ht]
    norm_num
  have hge : LASER_MAX_DURATION ≤ ((updateLaser o d)^[299] s).laserTime + 1/60 := by
    rw [h5, LASER_MAX_DURATION]
  exact ⟨(himp hge).1, by rw [ht1, h5], (himp hge).2⟩

/-- During the cooldown after a full burn, tick `k ≤ 30` leaves the laser
off with `cooldownTime = 1/2 - k/60`. -/
theorem cooldown_progress (o d : Vec3 ℝ) (s : LaserGame)
    (h : s.laserActive = false) (hc : s.cooldownTime = LASER_COOLDOWN_DURATION) :
    ∀ k : ℕ, k ≤ 30 →
      ((updateLaser o d)^[k] s).laserActive = false ∧
      ((updateLaser o d)^[k] s).cooldownTime = 1/2 - (k : ℚ) / 60 := by
  intro k
  induction k with
  | zero =>
    intro _
    refine ⟨h, ?_⟩
    simp only [Function.iterate_zero_apply, Nat.cast_zero]
    rw [hc, LASER_COOLDOWN_DURATION]
    norm_num
  | succ k ih =>
    intro hk
    obtain ⟨ha, hck⟩ := ih (by omega)
    rw [Function.iterate_succ_apply']
    have hcast : (k : ℚ) ≤ 29 := by exact_mod_cast (by omega : k ≤ 29)
    have hpos : 0 < ((updateLaser o d)^[k] s).cooldownTime := by
      rw [hck]
      linarith
    rw [updateLaser_cooldown_timing o d _ ha hpos]
    refine ⟨ha, ?_⟩
    show ((updateLaser o d)^[k] s).cooldownTime - 1/60 = _
    rw [hck]
    push_cast
    ring

/-! ## Claim C8 -/

/-- C8: a release received while the laser is firing immediately returns it
to `Idle` with the cooldown reset to zero — a new trigger is accepted at
once, bypassing the 0.5 s cooldown a full burn would incur, regardless of
how much of the burn has elapsed. -/
theorem release_bypasses_cooldown (s : LaserGame) (h : s.laserActive = true) :
    (handleMouseUp s).laserActive = false ∧
    (handleMouseUp s).cooldownTime = 0 ∧
    (handleMouseDown (handleMouseUp s)).laserActive = true ∧
    (handleMouseDown (handleMouseUp s)).laserTime = 0 := by
  simp [handleMouseUp, handleMouseDown, h]

/-- Witness for C8 at a mid-burn state (`laserTime = 7/4`). -/
theorem release_bypasses_cooldown_witness :
    (handleMouseUp laserBurnFixture).laserActive = false ∧
    (handleMouseUp laserBurnFixture).cooldownTime = 0 ∧
    (handleMouseDown (handleMouseUp laserBurnFixture)).laserActive = true ∧
    (handleMouseDown (handleMouseUp laserBurnFixture)).laserTime = 0 :=
  release_bypasses_cooldown laserBurnFixture rfl

/-! ## Claim C2 -/

/-- C2: the laser lifecycle.  A trigger while `Idle` (not firing, cooldown
expired) starts `Firing` with elapsed `0`; 5.0 s of ticks at `dt = 1/60`
(ticks 0–299 still firing with elapsed `n/60`, the 300th tick crossing
`LASER_MAX_DURATION`) moves to `Cooldown` with remaining `0.5`; 0.5 s of
further ticks (30 ticks) returns to `Idle` with `cooldownTime = 0`; and a
trigger during `Firing` or during `Cooldown` leaves the state unchanged. -/
theorem laser_lifecycle (o d : Vec3 ℝ) (s : LaserGame)
    (hact : s.laserActive = false) (hcool : s.cooldownTime ≤ 0) :
    (handleMouseDown s).laserActive = true ∧
    (handleMouseDown s).laserTime = 0 ∧
    (∀ n : ℕ, n ≤ 299 →
      ((updateLaser o d)^[n] (handleMouseDown s)).laserActive = true ∧
      ((updateLaser o d)^[n] (handleMouseDown s)).laserTime = (n : ℚ) / 60) ∧
    ((updateLaser o d)^[300] (handleMouseDown s)).laserActive = false ∧
    ((updateLaser o d)^[300] (handleMouseDown s)).cooldownTime =
      LASER_COOLDOWN_DURATION ∧
    (∀ k : ℕ, k < 30 →
      ((updateLaser o d)^[k]
        ((updateLaser o d)^[300] (handleMouseDown s))).laserActive = false ∧
      0 < ((updateLaser o d)^[k]
        ((updateLaser o d)^[300] (handleMouseDown s))).cooldownTime) ∧
    ((updateLaser o d)^[30]
      ((updateLaser o d)^[300] (handleMouseDown s))).laserActive = false ∧
    ((updateLaser o d)^[30]
      ((updateLaser o d)^[300] (handleMouseDown s))).cooldownTime = 0 ∧
    (∀ s' : LaserGame, s'.laserActive = true → handleMouseDown s' = s') ∧
    (∀ s' : LaserGame, 0 < s'.cooldownTime → handleMouseDown s' = s') := by
  have hdown : handleMouseDown s = { s with laserActive := true, laserTime := 0 } := by
    simp [handleMouseDown, hact, hcool]
  have hdact : (handleMouseDown s).laserActive = true := by rw [hdown]
  have hdtime : (handleMouseDown s).laserTime = 0 := by rw [hdown]
  obtain ⟨hba, hbt, hbc⟩ := burn_completes o d (handleMouseDown s) hdact hdtime
  have hcp := cooldown_progress o d _ hba hbc
  refine ⟨hdact, hdtime, burn_progress o d _ hdact hdtime, hba, hbc,
    fun k hk => ?_, (hcp 30 (le_refl _)).1, ?_, fun s' h' => ?_, fun s' h' => ?_⟩
  · obtain ⟨ha, hc⟩ := hcp k (by omega)
    refine ⟨ha, ?_⟩
    rw [hc]
    have hcast : (k : ℚ) ≤ 29 := by exact_mod_cast (by omega : k ≤ 29)
    linarith
  · rw [(hcp 30 (le_refl _)).2]
    norm_num
  · unfold handleMouseDown
    rw [if_neg]
    intro hcond
    rw [h'] at hcond
    exact absurd hcond.1 (by simp)
  · unfold handleMouseDown
    rw [if_neg]
    intro hcond
    exact absurd hcond.2 (not_le.mpr h')

/-- Witness for C2 from a concrete idle state: the burn ends into a 0.5 s
cooldown after 300 ticks and is idle again 30 ticks later. -/
theorem laser_lifecycle_witness :
    (handleMouseDown laserIdleFixture).laserActive = true ∧
    (handleMouseDown laserIdleFixture).laserTime = 0 ∧
    ((updateLaser rayO rayD)^[300] (handleMouseDown laserIdleFixture)).laserActive
      = false ∧
    ((updateLaser rayO rayD)^[300] (handleMouseDown laserIdleFixture)).cooldownTime
      = LASER_COOLDOWN_DURATION ∧
    ((updateLaser rayO rayD)^[30]
      ((updateLaser rayO rayD)^[300] (handleMouseDown laserIdleFixture))).cooldownTime
      = 0 :=
  ⟨(laser_lifecycle rayO rayD laserIdleFixture rfl (le_refl 0)).1,
   (laser_lifecycle rayO rayD laserIdleFixture rfl (le_refl 0)).2.1,
   (laser_lifecycle rayO rayD laserIdleFixture rfl (le_refl 0)).2.2.2.1,
   (laser_lifecycle rayO rayD laserIdleFixture rfl (le_refl 0)).2.2.2.2.1,
   (laser_lifecycle rayO rayD laserIdleFixture rfl (le_refl 0)).2.2.2.2.2.2.2.1⟩

/-! ## Claim C3 -/

/-- C3: for every control-state sequence and every tick, after the avatar
movement update each position component lies in the closed interval
`[-halfCube, halfCube]` with `halfCube = 800` for `CUBE_SIZE = 1600`. -/
theorem avatar_stays_in_cube (cs : ℕ → MoveControls) (a : Avatar) (n : ℕ) :
    -800 ≤ (runAvatar cs a (n + 1)).pos.x ∧ (runAvatar cs a (n + 1)).pos.x ≤ 800 ∧
    -800 ≤ (runAvatar cs a (n + 1)).pos.y ∧ (runAvatar cs a (n + 1)).pos.y ≤ 800 ∧
    -800 ≤ (runAvatar cs a (n + 1)).pos.z ∧ (runAvatar cs a (n + 1)).pos.z ≤ 800 := by
  have hcl : ∀ v : ℝ, -800 ≤ max (-(CUBE_SIZE / 2)) (min (CUBE_SIZE / 2) v) ∧
      max (-(CUBE_SIZE / 2)) (min (CUBE_SIZE / 2) v) ≤ 800 := by
    intro v
    have h8 : CUBE_SIZE / 2 = (800 : ℝ) := by norm_num [CUBE_SIZE]
    rw [h8]
    exact ⟨le_max_left _ _, max_le (by norm_num) (min_le_left _ _)⟩
  rw [runAvatar]
  exact ⟨(hcl _).1, (hcl _).2, (hcl _).1, (hcl _).2, (hcl _).1, (hcl _).2⟩

/-! ## Camera decay lemmas -/

/-- Closed form of the no-input camera decay: each angle is multiplied by
`1 - CAMERA_RETURN_SPEED` per tick. -/
theorem camDecay_closed_form (s : CamAngles) (n : ℕ) :
    (camDecay s n).angleY = s.angleY * (1 - CAMERA_RETURN_SPEED) ^ n ∧
    (camDecay s n).angleX = s.angleX * (1 - CAMERA_RETURN_SPEED) ^ n := by
  induction n with
  | zero => simp [camDecay]
  | succ n ih =>
    obtain ⟨hy, hx⟩ := ih
    rw [camDecay]
    constructor
    · show (updateCameraAngles noCamInput (camDecay s n)).angleY = _
      simp only [updateCameraAngles, noCamInput]
      norm_num [hy]
      ring
    · show (updateCameraAngles noCamInput (camDecay s n)).angleX = _
      simp only [updateCameraAngles, noCamInput]
      norm_num [hx]
      ring

/-! ## Claim C9 -/

/-- C9: from any initial yaw/pitch offsets within the clamped ranges,
ticking with every look-input released drives both offsets toward 0 with
non-increasing magnitude, never changing sign, and eventually below any
positive tolerance. -/
theorem camera_offsets_decay (s : CamAngles)
    (hy : |s.angleY| ≤ MAX_Y_ROTATION) (hx : |s.angleX| ≤ MAX_X_ROTATION) :
    (∀ n : ℕ,
      |(camDecay s (n + 1)).angleY| ≤ |(camDecay s n).angleY| ∧
      |(camDecay s (n + 1)).angleX| ≤ |(camDecay s n).angleX|) ∧
    (∀ n : ℕ,
      (0 < s.angleY → 0 < (camDecay s n).angleY) ∧
      (s.angleY < 0 → (camDecay s n).angleY < 0) ∧
      (s.angleY = 0 → (camDecay s n).angleY = 0) ∧
      (0 < s.angleX → 0 < (camDecay s n).angleX) ∧
      (s.angleX < 0 → (camDecay s n).angleX < 0) ∧
      (s.angleX = 0 → (camDecay s n).angleX = 0)) ∧
    (∀ ε : ℝ, 0 < ε → ∃ N : ℕ, ∀ n, N ≤ n →
      |(camDecay s n).angleY| < ε ∧ |(camDecay s n).angleX| < ε) := by
  set q : ℝ := 1 - CAMERA_RETURN_SPEED with hq
  have hq0 : 0 < q := by rw [hq]; norm_num [CAMERA_RETURN_SPEED]
  have hq1 : q < 1 := by rw [hq]; norm_num [CAMERA_RETURN_SPEED]
  have hpow : ∀ n : ℕ, 0 < q ^ n := fun n => pow_pos hq0 n
  refine ⟨fun n => ?_, fun n => ?_, fun ε hε => ?_⟩
  · obtain ⟨hyn, hxn⟩ := camDecay_closed_form s n
    obtain ⟨hyn1, hxn1⟩ := camDecay_closed_form s (n + 1)
    rw [hyn, hxn, hyn1, hxn1]
    constructor <;>
    · rw [pow_succ, ← mul_assoc, abs_mul, abs_mul]
      exact mul_le_of_le_one_right (mul_nonneg (abs_nonneg _) (abs_nonneg _))
        (by rw [abs_of_pos hq0]; linarith)
  · obtain ⟨hyn, hxn⟩ := camDecay_closed_form s n
    rw [hyn, hxn]
    refine ⟨fun h => mul_pos h (hpow n), fun h => mul_neg_of_neg_of_pos h (hpow n),
      fun h => by rw [h, zero_mul],
      fun h => mul_pos h (hpow n), fun h => mul_neg_of_neg_of_pos h (hpow n),
      fun h => by rw [h, zero_mul]⟩
  · have hM : (0 : ℝ) < max |s.angleY| |s.angleX| + 1 := by
      have := abs_nonneg s.angleY
      have h2 := le_max_left |s.angleY| |s.angleX|
      linarith
    obtain ⟨N, hN⟩ := exists_pow_lt_of_lt_one (div_pos hε hM) hq1
    refine ⟨N, fun n hn => ?_⟩
    obtain ⟨hyn, hxn⟩ := camDecay_closed_form s n
    have hqn : q ^ n ≤ q ^ N := pow_le_pow_of_le_one hq0.le hq1.le hn
    have key : ∀ v : ℝ, |v| ≤ max |s.angleY| |s.angleX| → |v * q ^ n| < ε := by
      intro v hv
      rw [abs_mul, abs_of_pos (hpow n)]
      calc |v| * q ^ n ≤ (max |s.angleY| |s.angleX| + 1) * q ^ N := by
            apply mul_le_mul (by linarith) hqn (hpow n).le hM.le
        _ < (max |s.angleY| |s.angleX| + 1) * (ε / (max |s.angleY| |s.angleX| + 1)) :=
            mul_lt_mul_of_pos_left hN hM
        _ = ε := mul_div_cancel₀ ε (ne_of_gt hM)
    rw [hyn, hxn]
    exact ⟨key _ (le_max_left _ _), key _ (le_max_right _ _)⟩

/-- Witness for C9 at concrete offsets `(1, 1/2)` (within `π` and `π/3`):
after enough no-input ticks both offsets drop below `1/1000`. -/
theorem camera_offsets_decay_witness :
    (∀ n : ℕ,
      |(camDecay camFixture (n + 1)).angleY| ≤ |(camDecay camFixture n).angleY| ∧
      |(camDecay camFixture (n + 1)).angleX| ≤ |(camDecay camFixture n).angleX|) ∧
    (∃ N : ℕ, ∀ n, N ≤ n →
      |(camDecay camFixture n).angleY| < 1/1000 ∧
      |(camDecay camFixture n).angleX| < 1/1000) := by
  have hy : |(camFixture).angleY| ≤ MAX_Y_ROTATION := by
    have h3 : (3 : ℝ) < Real.pi := Real.pi_gt_three
    rw [show camFixture.angleY = (1 : ℝ) from rfl, MAX_Y_ROTATION]
    rw [abs_one]
    linarith
  have hx : |(camFixture).angleX| ≤ MAX_X_ROTATION := by
    have h3 : (3 : ℝ) < Real.pi := Real.pi_gt_three
    rw [show camFixture.angleX = (1/2 : ℝ) from rfl, MAX_X_ROTATION]
    rw [abs_of_pos (by norm_num : (0:ℝ) < 1/2)]
    linarith
  exact ⟨(camera_offsets_decay camFixture hy hx).1,
    (camera_offsets_decay camFixture hy hx).2.2 (1/1000) (by norm_num)⟩

/-! ## Collision-scan lemmas -/

/-- An in-bounds `getD` is a member of the list. -/
theorem getD_mem {α : Type} (dp : α) (l : List α) (j : ℕ) (hj : j < l.length) :
    l.getD j dp ∈ l := by
  rw [List.getD_eq_getElem l dp hj]
  exact List.getElem_mem hj

/-- An in-bounds `getD` at an index other than `i` survives `eraseIdx i`. -/
theorem getD_mem_eraseIdx {α : Type} (dp : α) :
    ∀ (l : List α) (i j : ℕ), j < l.length → j ≠ i →
      l.getD j dp ∈ l.eraseIdx i := by
  intro l
  induction l with
  | nil =>
    intro i j hj _
    simp at hj
  | cons a l ih =>
    intro i j hj hne
    match i, j with
    | 0, 0 => exact absurd rfl hne
    | 0, j + 1 =>
      rw [List.eraseIdx_cons_zero, List.getD_cons_succ]
      exact getD_mem dp l j (by simpa using hj)
    | i + 1, 0 =>
      rw [List.eraseIdx_cons_succ, List.getD_cons_zero]
      exact List.mem_cons_self a _
    | i + 1, j + 1 =>
      rw [List.eraseIdx_cons_succ, List.getD_cons_succ]
      exact List.mem_cons_of_mem a
        (ih i j (by simpa using hj) (by omega))

/-- `eraseIdx` removes at most one element. -/
theorem length_le_length_eraseIdx_add_one {α : Type} (l : List α) (i : ℕ) :
    l.length ≤ (l.eraseIdx i).length + 1 := by
  rw [List.length_eraseIdx]
  split_ifs with h <;> omega

/-- Every answer of the scan `bestHitAux` is the hit distance of one of the
scanned planets. -/
theorem bestHitAux_mem (o d : Vec3 ℝ) :
    ∀ (ps : List (Planet ℝ)) (k j : ℕ) (s : ℝ),
      bestHitAux o d k ps = some (j, s) →
      ∃ m, m < ps.length ∧ j = k + m ∧
        hitDistance o d (ps.getD m defaultPlanet) = some s := by
  intro ps
  induction ps with
  | nil =>
    intro k j s h
    simp [bestHitAux] at h
  | cons p ps ih =>
    intro k j s h
    rcases hp : hitDistance o d p with _ | t <;>
      rcases hr : bestHitAux o d (k + 1) ps with _ | ⟨j', s'⟩ <;>
        simp only [bestHitAux, hp, hr] at h
    · exact absurd h (by simp)
    · obtain ⟨m, hm, hjm, hmd⟩ := ih (k + 1) j s (by rw [hr]; exact h)
      exact ⟨m + 1, by simpa using hm, by omega,
        by rw [List.getD_cons_succ]; exact hmd⟩
    · obtain ⟨h1, h2⟩ := Prod.mk.injEq .. ▸ Option.some.inj h
      exact ⟨0, by simp, by omega,
        by rw [List.getD_cons_zero, hp, h2]⟩
    · by_cases hlt : s' < t
      · rw [if_pos hlt] at h
        obtain ⟨h1, h2⟩ := Prod.mk.injEq .. ▸ Option.some.inj h
        obtain ⟨m, hm, hjm, hmd⟩ := ih (k + 1) j' s' hr
        exact ⟨m + 1, by simpa using hm, by omega,
          by rw [List.getD_cons_succ, hmd, h2]⟩
      · rw [if_neg hlt] at h
        obtain ⟨h1, h2⟩ := Prod.mk.injEq .. ▸ Option.some.inj h
        exact ⟨0, by simp, by omega,
          by rw [List.getD_cons_zero, hp, h2]⟩

/-- If planet `i` is hit at distance `t` and every other hit planet is
strictly farther, the scan starting at offset `k` returns `(k + i, t)`. -/
theorem bestHitAux_min (o d : Vec3 ℝ) :
    ∀ (ps : List (Planet ℝ)) (k i : ℕ) (t : ℝ), i < ps.length →
      hitDistance o d (ps.getD i defaultPlanet) = some t →
      (∀ j, j < ps.length → j ≠ i → ∀ t',
        hitDistance o d (ps.getD j defaultPlanet) = some t' → t < t') →
      bestHitAux o d k ps = some (k + i, t) := by
  intro ps
  induction ps with
  | nil =>
    intro k i t hi
    simp at hi
  | cons p ps ih =>
    intro k i t hi hit hmin
    match i with
    | 0 =>
      rw [List.getD_cons_zero] at hit
      rcases hr : bestHitAux o d (k + 1) ps with _ | ⟨j', s'⟩
      · simp [bestHitAux, hit, hr]
      · obtain ⟨m, hm, hjm, hmd⟩ := bestHitAux_mem o d ps (k + 1) j' s' hr
        have hts : t < s' := hmin (m + 1) (by simpa using hm) (by omega) s'
          (by rw [List.getD_cons_succ]; exact hmd)
        simp only [bestHitAux, hit, hr]
        rw [if_neg (not_lt.mpr hts.le), Nat.add_zero]
    | i' + 1 =>
      rw [List.getD_cons_succ] at hit
      have hmin' : ∀ j, j < ps.length → j ≠ i' → ∀ t',
          hitDistance o d (ps.getD j defaultPlanet) = some t' → t < t' := by
        intro j hj hne t' ht'
        exact hmin (j + 1) (by simpa using hj) (by omega) t'
          (by rw [List.getD_cons_succ]; exact ht')
      have hih := ih (k + 1) i' t (by simpa using hi) hit hmin'
      have harith : k + 1 + i' = k + (i' + 1) := by omega
      rcases hp : hitDistance o d p with _ | t0
      · simp only [bestHitAux, hp, hih]
        rw [harith]
      · have ht0 : t < t0 := hmin 0 (by simp) (by omega) t0
          (by rw [List.getD_cons_zero]; exact hp)
        simp only [bestHitAux, hp, hih]
        rw [if_pos ht0, harith]

/-- `intersects[0]` is the planet with the strictly least hit distance. -/
theorem bestHit_min (o d : Vec3 ℝ) (ps : List (Planet ℝ)) (i : ℕ) (t : ℝ)
    (hi : i < ps.length)
    (hit : hitDistance o d (ps.getD i defaultPlanet) = some t)
    (hmin : ∀ j, j < ps.length → j ≠ i → ∀ t',
      hitDistance o d (ps.getD j defaultPlanet) = some t' → t < t') :
    bestHit o d ps = some (i, t) := by
  have h := bestHitAux_min o d ps 0 i t hi hit hmin
  rwa [Nat.zero_add] at h

/-- Score and registry effect of one firing tick with a hit at index `i`. -/
theorem updateLaser_hit (o d : Vec3 ℝ) (s : LaserGame)
    (h : s.laserActive = true) (i : ℕ) (t : ℝ)
    (hb : bestHit o d s.planets = some (i, t)) :
    (updateLaser o d s).score =
      s.score + (s.planets.getD i defaultPlanet).body.points ∧
    (updateLaser o d s).planets = s.planets.eraseIdx i := by
  simp only [updateLaser, h, hb]
  split_ifs <;> simp

/-- One `updateLaser` tick never removes more than one planet. -/
theorem updateLaser_at_most_one_removal (o d : Vec3 ℝ) (s : LaserGame) :
    s.planets.length ≤ (updateLaser o d s).planets.length + 1 := by
  rcases hb : bestHit o d s.planets with _ | ⟨i, t⟩ <;>
    by_cases h : s.laserActive = true <;>
      by_cases hc : 0 < s.cooldownTime <;>
        simp [updateLaser, h, hb, hc] <;>
          split_ifs <;>
            simp [length_le_length_eraseIdx_add_one]

/-! ## Concrete hit distances -/

theorem sqrt_ten_thousand : Real.sqrt 10000 = 100 := by
  rw [show (10000 : ℝ) = 100 ^ 2 by norm_num]
  exact Real.sqrt_sq (by norm_num)

/-- The fixture ray hits `planetNear` at distance `2400`. -/
theorem hitDistance_planetNear : hitDistance rayO rayD planetNear = some 2400 := by
  unfold hitDistance
  norm_num [rayO, rayD, planetNear, Vec3.sub, Vec3.dot, sqrt_ten_thousand]

/-- The fixture ray hits `planetFar` at distance `2700`. -/
theorem hitDistance_planetFar : hitDistance rayO rayD planetFar = some 2700 := by
  unfold hitDistance
  norm_num [rayO, rayD, planetFar, Vec3.sub, Vec3.dot, sqrt_ten_thousand]

/-! ## Claim C4 -/

/-- C4: in a tick in which the firing laser's ray intersects a fixed planet
with point value `P` and no other planet is nearer along the ray, the score
increases by exactly `P` (once), and that planet is removed from the live
registry within the same tick. -/
theorem laser_scores_and_removes_hit (o d : Vec3 ℝ) (s : LaserGame)
    (i : ℕ) (t : ℝ) (hact : s.laserActive = true)
    (hi : i < s.planets.length)
    (hit : hitDistance o d (s.planets.getD i defaultPlanet) = some t)
    (hmin : ∀ j, j < s.planets.length → j ≠ i → ∀ t',
      hitDistance o d (s.planets.getD j defaultPlanet) = some t' → t < t') :
    (updateLaser o d s).score =
      s.score + (s.planets.getD i defaultPlanet).body.points ∧
    (updateLaser o d s).planets = s.planets.eraseIdx i ∧
    (updateLaser o d s).planets.length = s.planets.length - 1 := by
  have hb := bestHit_min o d s.planets i t hi hit hmin
  obtain ⟨h1, h2⟩ := updateLaser_hit o d s hact i t hb
  refine ⟨h1, h2, ?_⟩
  rw [h2, List.length_eraseIdx, if_pos hi]

/-- Witness for C4: the fixture ray strikes `planetNear` (250 points). -/
theorem laser_scores_and_removes_hit_witness :
    (updateLaser rayO rayD laserFixture).score =
      laserFixture.score +
        (laserFixture.planets.getD 0 defaultPlanet).body.points ∧
    (updateLaser rayO rayD laserFixture).planets =
      laserFixture.planets.eraseIdx 0 ∧
    (updateLaser rayO rayD laserFixture).planets.length =
      laserFixture.planets.length - 1 :=
  laser_scores_and_removes_hit rayO rayD laserFixture 0 2400 rfl
    (by norm_num [laserFixture])
    (by
      rw [show laserFixture.planets.getD 0 defaultPlanet = planetNear from rfl]
      exact hitDistance_planetNear)
    (by
      intro j hj hne t' ht'
      have hj2 : j < 2 := by simpa [laserFixture] using hj
      interval_cases j
      · exact absurd rfl hne
      · rw [show laserFixture.planets.getD 1 defaultPlanet = planetFar from rfl,
          hitDistance_planetFar] at ht'
        have : t' = 2700 := (Option.some.inj ht').symm
        rw [this]
        norm_num)

/-! ## Claim C5 -/

/-- C5: in a single firing tick at most one planet is destroyed, and when
two (or more) planets lie along the aim ray at different distances, only
the nearest one is destroyed and scored — any farther hit planet stays in
the registry and contributes nothing to the score. -/
theorem at_most_one_planet_destroyed (o d : Vec3 ℝ) (s : LaserGame)
    (i j : ℕ) (t tj : ℝ) (hact : s.laserActive = true)
    (hi : i < s.planets.length)
    (hit : hitDistance o d (s.planets.getD i defaultPlanet) = some t)
    (hmin : ∀ j', j' < s.planets.length → j' ≠ i → ∀ t',
      hitDistance o d (s.planets.getD j' defaultPlanet) = some t' → t < t')
    (hj : j < s.planets.length) (hne : j ≠ i)
    (hitj : hitDistance o d (s.planets.getD j defaultPlanet) = some tj) :
    t < tj ∧
    (updateLaser o d s).planets = s.planets.eraseIdx i ∧
    (updateLaser o d s).score =
      s.score + (s.planets.getD i defaultPlanet).body.points ∧
    s.planets.getD j defaultPlanet ∈ (updateLaser o d s).planets ∧
    ∀ (s2 : LaserGame) (o2 d2 : Vec3 ℝ),
      s2.planets.length ≤ (updateLaser o2 d2 s2).planets.length + 1 := by
  have hb := bestHit_min o d s.planets i t hi hit hmin
  obtain ⟨h1, h2⟩ := updateLaser_hit o d s hact i t hb
  refine ⟨hmin j hj hne tj hitj, h2, h1, ?_,
    fun s2 o2 d2 => updateLaser_at_most_one_removal o2 d2 s2⟩
  rw [h2]
  exact getD_mem_eraseIdx defaultPlanet s.planets i j hj hne

/-- Witness for C5: with `planetNear` (2400) and `planetFar` (2700) on the
same ray, only `planetNear` is destroyed and scored. -/
theorem at_most_one_planet_destroyed_witness :
    (2400 : ℝ) < 2700 ∧
    (updateLaser rayO rayD laserFixture).planets =
      laserFixture.planets.eraseIdx 0 ∧
    (updateLaser rayO rayD laserFixture).score =
      laserFixture.score +
        (laserFixture.planets.getD 0 defaultPlanet).body.points ∧
    laserFixture.planets.getD 1 defaultPlanet ∈
      (updateLaser rayO rayD laserFixture).planets ∧
    ∀ (s2 : LaserGame) (o2 d2 : Vec3 ℝ),
      s2.planets.length ≤ (updateLaser o2 d2 s2).planets.length + 1 :=
  at_most_one_planet_destroyed rayO rayD laserFixture 0 1 2400 2700 rfl
    (by norm_num [laserFixture])
    (by
      rw [show laserFixture.planets.getD 0 defaultPlanet = planetNear from rfl]
      exact hitDistance_planetNear)
    (by
      intro j hj hne t' ht'
      have hj2 : j < 2 := by simpa [laserFixture] using hj
      interval_cases j
      · exact absurd rfl hne
      · rw [show laserFixture.planets.getD 1 defaultPlanet = planetFar from rfl,
          hitDistance_planetFar] at ht'
        have : t' = 2700 := (Option.some.inj ht').symm
        rw [this]
        norm_num)
    (by norm_num [laserFixture])
    (by omega)
    (by
      rw [show laserFixture.planets.getD 1 defaultPlanet = planetFar from rfl]
      exact hitDistance_planetFar)
